import Mathlib

/-!
Verification of the space-station cargo logistics core: data model, placement
engine, retrieval planner, waste collector and time simulator.

Embedding conventions:
* Python dicts (`items`, `containers`) are association lists `List (String × α)`
  in insertion order; `dict` iteration order in Python 3.7+ is insertion order.
* Python floats are modelled as rationals `ℚ`; `int(x)` for the values arising
  here is `⌊x⌋` (all inputs of interest are non-negative).
* `datetime` values are modelled as whole days (an integer), so that
  `(a - b).days` is exact integer subtraction.
* Python's `sorted`/`list.sort` are stable; a stable sort w.r.t. a total
  preorder has a unique result, and `List.insertionSort` is such a stable
  sort, so it is used to model them with the corresponding comparator.
-/

set_option maxRecDepth 8000

namespace SpaceCargo

/-- Expiry-date field of an item: the sentinel "N/A", a parseable ISO date
(represented by its absolute day number), or an unparseable string (which
`datetime.fromisoformat` rejects with an exception that callers swallow). -/
inductive EDate
| na
| valid (day : ℤ)
| invalid
deriving DecidableEq

/-- The `currentLocation` dict of an item (`models/item.py`): a dict whose
keys `containerId`, `position`, `rotation` may each be absent. `none` at the
outer level models both Python `None`; a record with `containerId = none`
models a dict without that key (including the empty dict, which is falsy). -/
structure CurrentLocation where
  containerId : Option String
  position : Option (ℚ × ℚ × ℚ)
  rotation : Option (ℚ × ℚ × ℚ)
deriving DecidableEq

/-- `models/item.py` `Item`. -/
structure Item where
  itemId : String
  name : String
  width : ℚ
  depth : ℚ
  height : ℚ
  mass : ℚ
  priority : ℤ
  expiryDate : EDate
  usageLimit : ℤ
  preferredZone : String
  isWaste : Bool
  currentLocation : Option CurrentLocation
deriving DecidableEq

/-- `Item.get_volume`. -/
def Item.get_volume (i : Item) : ℚ := i.width * i.depth * i.height

/-- `Item.get_all_rotations`. -/
def Item.get_all_rotations (i : Item) : List (ℚ × ℚ × ℚ) :=
  [ (i.width, i.depth, i.height),
    (i.width, i.height, i.depth),
    (i.depth, i.width, i.height),
    (i.depth, i.height, i.width),
    (i.height, i.width, i.depth),
    (i.height, i.depth, i.width) ]

/-- `models/container.py` `Container`. -/
structure Container where
  containerId : String
  zone : String
  width : ℚ
  depth : ℚ
  height : ℚ
  occupiedSpace : ℚ
  items : List String
deriving DecidableEq

/-- `Container.get_available_space`. -/
def Container.get_available_space (c : Container) : ℚ :=
  c.width * c.depth * c.height - c.occupiedSpace

/-- `Container.is_full`. -/
def Container.is_full (c : Container) : Bool :=
  decide (c.occupiedSpace ≥ (95/100 : ℚ) * (c.width * c.depth * c.height))

/-- `Container.add_item` (the boolean result is dropped by all call sites in
the core; on insufficient space the container is returned unchanged). -/
def Container.add_item (c : Container) (item_id : String) (volume : ℚ) : Container :=
  if volume > c.get_available_space then c
  else { c with
          items := if item_id ∈ c.items then c.items else c.items ++ [item_id],
          occupiedSpace := c.occupiedSpace + volume }

/-- `Container.remove_item`. -/
def Container.remove_item (c : Container) (item_id : String) (volume : ℚ) : Container :=
  { c with
     items := c.items.erase item_id,
     occupiedSpace := max 0 (c.occupiedSpace - volume) }

/-- `models/placement.py` `RearrangementStep`. -/
structure RearrangementStep where
  step : ℕ
  action : String
  itemId : String
  fromContainer : Option String := none
  toContainer : Option String := none
  position : Option (ℚ × ℚ × ℚ) := none
deriving DecidableEq

/-- `models/placement.py` `ItemPlacement`. -/
structure ItemPlacement where
  itemId : String
  containerId : String
  position : ℚ × ℚ × ℚ
  rotation : ℚ × ℚ × ℚ
deriving DecidableEq

/-- `models/placement.py` `PlacementResponse`. -/
structure PlacementResponse where
  placements : List ItemPlacement
  rearrangements : List RearrangementStep
deriving DecidableEq

/-- The classification reason of a waste item.  The source stores a string;
the five shapes that occur are modelled as constructors, and the string
tests done by the urgency scorer (`"Expired" in reason`, splitting out the
embedded number, ...) are translated against these shapes. -/
inductive Reason
| expired
| outOfUses
| manuallyMarked
| expiresIn (k : ℤ)
| usesRemaining (k : ℤ)
deriving DecidableEq

/-- `models/placement.py` `WasteItem`. -/
structure WasteItem where
  itemId : String
  name : String
  reason : Reason
  containerId : Option String := none
  position : Option (ℚ × ℚ × ℚ) := none
  mass : ℚ
deriving DecidableEq

/-- `models/placement.py` `WasteReturnStep`. -/
structure WasteReturnStep where
  step : ℕ
  action : String
  itemId : String
  fromContainer : Option String := none
  toContainer : Option String := none
deriving DecidableEq

/-- The container id recorded in an item's `currentLocation`, if any:
Python's `item.currentLocation` truthiness check combined with
`"containerId" in item.currentLocation` / `.get("containerId")`. -/
def locContainer (i : Item) : Option String :=
  i.currentLocation.bind (·.containerId)

/-- `item.currentLocation.get("position", (0, 0, 0))`. -/
def locPosition (loc : CurrentLocation) : ℚ × ℚ × ℚ :=
  loc.position.getD (0, 0, 0)

/-- `item.currentLocation.get("rotation", (item.width, item.depth, item.height))`. -/
def locRotation (i : Item) (loc : CurrentLocation) : ℚ × ℚ × ℚ :=
  loc.rotation.getD (i.width, i.depth, i.height)

/-! ### Space3D

Modelled from the spec: the module `utils/space3d.py` (class `Space3D` with
`place_item`, `find_position`, `calculate_retrieval_complexity`) is imported
by the services but is not part of the provided sources.  Spec §4.1 defines
it: a per-container free-space model over the box `(W, D, H)`; placed boxes
occupy `[x, x+w) × [y, y+d) × [z, z+h)`; `find_position` returns the lowest
`y`, then `z`, then `x` corner (integer voxel coordinates, 1 cm resolution)
where the box fits inside the bounds without intersecting any occupied cell;
`retrieval_depth` counts placed boxes whose x–z projection intersects the
query's projection and for which `y' + d' ≤ y` is false. -/

structure PlacedBox where
  x : ℚ
  y : ℚ
  z : ℚ
  w : ℚ
  d : ℚ
  h : ℚ
deriving DecidableEq

structure Space3D where
  width : ℚ
  depth : ℚ
  height : ℚ
  boxes : List PlacedBox
deriving DecidableEq

/-- `Space3D(width, depth, height)` constructor: an empty model. -/
def Space3D.make (w d h : ℚ) : Space3D := ⟨w, d, h, []⟩

/-- `Space3D.place_item`: mark the box occupied. -/
def Space3D.place_item (s : Space3D) (x y z w d h : ℚ) : Space3D :=
  { s with boxes := s.boxes ++ [⟨x, y, z, w, d, h⟩] }

/-- Open-interval overlap of the x–z projections of a query box and a placed box. -/
def xzOverlap (x z w h : ℚ) (b : PlacedBox) : Bool :=
  decide (x < b.x + b.w ∧ b.x < x + w ∧ z < b.z + b.h ∧ b.z < z + h)

/-- Modelled from the spec: `retrieval_depth` (called
`calculate_retrieval_complexity` at the call sites) counts the placed boxes
intersecting the forward projection of the query box toward the `y = 0` face. -/
def Space3D.calculate_retrieval_complexity (s : Space3D) (x y z w _d h : ℚ) : ℕ :=
  (s.boxes.filter (fun b => xzOverlap x z w h b && !decide (b.y + b.d ≤ y))).length

/-- Full 3-dimensional open-interval overlap of a query box with a placed box. -/
def boxOverlap (x y z w d h : ℚ) (b : PlacedBox) : Bool :=
  decide (x < b.x + b.w ∧ b.x < x + w ∧ y < b.y + b.d ∧ b.y < y + d ∧
          z < b.z + b.h ∧ b.z < z + h)

/-- Whether a box with min-corner `(x, y, z)` fits inside the model's bounds
without intersecting any occupied cell. -/
def Space3D.isFree (s : Space3D) (x y z w d h : ℚ) : Bool :=
  decide (x + w ≤ s.width ∧ y + d ≤ s.depth ∧ z + h ≤ s.height ∧
          0 ≤ x ∧ 0 ≤ y ∧ 0 ≤ z) &&
  s.boxes.all (fun b => !boxOverlap x y z w d h b)

/-- Modelled from the spec: `find_position` scans integer (1 cm voxel)
corners in lexicographic `(y, z, x)` order — lowest `y`, then lowest `z`,
then lowest `x` — and returns the first free corner, or `none`. -/
def Space3D.find_position (s : Space3D) (w d h : ℚ) : Option (ℚ × ℚ × ℚ) :=
  let ys := List.range ((⌊s.depth - d⌋).toNat + 1)
  let zs := List.range ((⌊s.height - h⌋).toNat + 1)
  let xs := List.range ((⌊s.width - w⌋).toNat + 1)
  let cands := ys.flatMap (fun y => zs.flatMap (fun z => xs.map (fun x =>
    ((x : ℚ), (y : ℚ), (z : ℚ)))))
  (cands.find? (fun c => s.isFree c.1 c.2.1 c.2.2 w d h)).map
    (fun c => (c.1, c.2.1, c.2.2))

/-! ### Retrieval service (`services/retrieval.py`) -/

/-- An entry of the `blocked_by` list built by
`RetrievalService._calculate_retrieval_complexity`. -/
structure BlockEntry where
  itemId : String
  name : String
  position : ℚ × ℚ × ℚ
  depth : ℕ
deriving DecidableEq

/-- One row of the `container_items` table: an item of the target's container
other than the target, with its resolved position and rotation. -/
structure ContainerItemInfo where
  itemId : String
  item : Item
  position : ℚ × ℚ × ℚ
  rotation : ℚ × ℚ × ℚ
deriving DecidableEq

/-- The `container_items` dict of `_calculate_retrieval_complexity`: every
item other than the target whose `currentLocation` names this container, in
store iteration order, with defaulted position and rotation. -/
def containerItemsOf (target : Item) (container : Container)
    (items : List (String × Item)) : List ContainerItemInfo :=
  (items.filter (fun p =>
      p.1 ≠ target.itemId ∧ locContainer p.2 = some container.containerId)).map
    (fun p =>
      let loc := p.2.currentLocation.getD ⟨none, none, none⟩
      ⟨p.1, p.2, locPosition loc, locRotation p.2 loc⟩)

/-- The space model built inside `_calculate_retrieval_complexity`: all items
of the container except the target, placed in iteration order. -/
def blockerSpaceModel (container : Container) (cItems : List ContainerItemInfo) : Space3D :=
  cItems.foldl
    (fun s info =>
      let (ox, oy, oz) := info.position
      let (ow, od, oh) := info.rotation
      s.place_item ox oy oz ow od oh)
    (Space3D.make container.width container.depth container.height)

/-- The blocking test of `_calculate_retrieval_complexity`, verbatim:
`other_y < y` skips the item, then the x- and z-overlap tests (each written
in the source as a disjunction of two identical conjunctions). -/
def blocksTarget (x _y z : ℚ) (tw _td th : ℚ) (y : ℚ) (info : ContainerItemInfo) : Bool :=
  let (ox, oy, oz) := info.position
  let (ow, _od, oh) := info.rotation
  !decide (oy < y) &&
  decide ((ox < x + tw ∧ x < ox + ow) ∨ (x < ox + ow ∧ ox < x + tw)) &&
  decide ((oz < z + th ∧ z < oz + oh) ∨ (z < oz + oh ∧ oz < z + th))

/-- `RetrievalService._calculate_retrieval_complexity`: the number of steps
needed and the list of blocking items, sorted ascending by their computed
retrieval depth (Python's stable `list.sort`). -/
def calculate_retrieval_complexity (target : Item) (container : Container)
    (position rotation : ℚ × ℚ × ℚ) (items : List (String × Item)) :
    ℕ × List BlockEntry :=
  let (x, y, z) := position
  let (tw, td, th) := rotation
  let cItems := containerItemsOf target container items
  let space_model := blockerSpaceModel container cItems
  let blocked_by := (cItems.filter (blocksTarget x y z tw td th y)).map
    (fun info =>
      let (ox, oy, oz) := info.position
      let (ow, od, oh) := info.rotation
      { itemId := info.itemId
        name := info.item.name
        position := info.position
        depth := space_model.calculate_retrieval_complexity ox oy oz ow od oh })
  let sorted := blocked_by.insertionSort (fun a b => a.depth ≤ b.depth)
  (sorted.length + 1, sorted)

/-- One entry of the `available_containers` cache of
`_generate_optimized_retrieval_steps`: the container together with its cached
(available-space) figure, which is decremented as blockers are assigned. -/
structure AvailEntry where
  contId : String
  container : Container
  available_space : ℚ
deriving DecidableEq

/-- The initial `available_containers` cache: every container other than the
origin with strictly positive available space, in store iteration order. -/
def availableContainersOf (origin : Container) (containers : List (String × Container)) :
    List AvailEntry :=
  (containers.filter (fun p =>
      p.2.containerId ≠ origin.containerId ∧ 0 < p.2.get_available_space)).map
    (fun p => ⟨p.1, p.2, p.2.get_available_space⟩)

/-- The temporary-container selection loop for one blocker: scan the cache in
order; the first container with enough space *and* the origin's zone is
chosen and its cached space decremented (`break`); containers of other zones
are never chosen.  Fallback is the symbolic `"temporary_storage"`. -/
def pickTempContainer (origin : Container) (item_volume : ℚ) :
    List AvailEntry → String × List AvailEntry
  | [] => ("temporary_storage", [])
  | e :: rest =>
      if e.available_space ≥ item_volume ∧ e.container.zone = origin.zone then
        (e.contId, { e with available_space := e.available_space - item_volume } :: rest)
      else
        let (best, rest') := pickTempContainer origin item_volume rest
        (best, e :: rest')

/-- `items[blocking_id].get_volume()`; the id always comes from the store, so
the `none` branch is unreachable at call sites. -/
def storedVolume (items : List (String × Item)) (item_id : String) : ℚ :=
  match items.lookup item_id with
  | some it => it.get_volume
  | none => 0

/-- One iteration of the blocker loop of
`_generate_optimized_retrieval_steps`: pick a temporary container, emit the
move step, bump the counter, record the `(id, temp)` pair. -/
def moveBlockerStep (items : List (String × Item)) (container : Container)
    (st : List RearrangementStep × ℕ × List (String × String) × List AvailEntry)
    (be : BlockEntry) :
    List RearrangementStep × ℕ × List (String × String) × List AvailEntry :=
  let (steps, step_count, moved, avail) := st
  let item_volume := storedVolume items be.itemId
  let (best_temp, avail') := pickTempContainer container item_volume avail
  (steps ++ [{ step := step_count
               action := "move"
               itemId := be.itemId
               fromContainer := some container.containerId
               toContainer := some best_temp }],
   step_count + 1, moved ++ [(be.itemId, best_temp)], avail')

/-- One iteration of the restore loop of
`_generate_optimized_retrieval_steps`: move a blocker back to the origin. -/
def restoreBlockerStep (container : Container)
    (st : List RearrangementStep × ℕ) (mv : String × String) :
    List RearrangementStep × ℕ :=
  (st.1 ++ [{ step := st.2
              action := "move"
              itemId := mv.1
              fromContainer := some mv.2
              toContainer := some container.containerId }],
   st.2 + 1)

/-- `RetrievalService._generate_optimized_retrieval_steps`.

`setOrder` models the iteration order of the Python set `moved_to_temp` when
it is converted by `list(moved_to_temp)`: CPython specifies only that the
result is some enumeration of the elements (hash order, randomized between
processes), so the embedding takes the reordering as a parameter applied to
the insertion-order list of `(blocking_id, temp_container)` pairs. -/
def generate_optimized_retrieval_steps
    (setOrder : List (String × String) → List (String × String))
    (target : Item) (container : Container)
    (position rotation : ℚ × ℚ × ℚ)
    (items : List (String × Item)) (containers : List (String × Container)) :
    List RearrangementStep :=
  let blocked_by := (calculate_retrieval_complexity target container position rotation items).2
  let avail0 := availableContainersOf container containers
  -- first phase: one move step per blocker, threading the cache, the step
  -- counter and the insertion-order `moved_to_temp` list
  let phase1 := blocked_by.foldl (moveBlockerStep items container) ([], 1, [], avail0)
  let (steps1, count1, moved, _) := phase1
  -- the retrieve step for the target itself
  let steps2 := steps1 ++ [{ step := count1
                             action := "retrieve"
                             itemId := target.itemId
                             fromContainer := some container.containerId }]
  -- restore phase: `for blocking_id, temp in reversed(list(moved_to_temp))`
  let phase3 := ((setOrder moved).reverse).foldl (restoreBlockerStep container)
    (steps2, count1 + 1)
  phase3.1

/-- Replace the value stored under a key of an association list. -/
def updateAssoc {α : Type} (l : List (String × α)) (key : String) (f : α → α) :
    List (String × α) :=
  l.map (fun p => if p.1 = key then (p.1, f p.2) else p)

/-- `RetrievalService.retrieve_item`: the success flag and steps, together
with the updated item and container stores (the Python method mutates the
shared objects in place). -/
def retrieve_item
    (setOrder : List (String × String) → List (String × String))
    (item_id : String) (_user_id : String)
    (items : List (String × Item)) (containers : List (String × Container)) :
    Bool × List RearrangementStep × List (String × Item) × List (String × Container) :=
  match items.lookup item_id with
  | none => (false, [], items, containers)
  | some item =>
    match locContainer item with
    | none => (false, [], items, containers)
    | some container_id =>
      match containers.lookup container_id with
      | none => (false, [], items, containers)
      | some container =>
        let loc := item.currentLocation.getD ⟨none, none, none⟩
        let position := locPosition loc
        let rotation := locRotation item loc
        let steps := generate_optimized_retrieval_steps setOrder item container
          position rotation items containers
        let item' :=
          if item.usageLimit > 0 then
            let u := item.usageLimit - 1
            { item with usageLimit := u, isWaste := if u = 0 then true else item.isWaste }
          else item
        let item'' := { item' with currentLocation := none }
        let containers' := updateAssoc containers container_id
          (fun c => c.remove_item item_id item.get_volume)
        (true, steps, updateAssoc items item_id (fun _ => item''), containers')

/-! ### Waste service (`services/waste.py`) -/

/-- The per-item classification of `WasteService.identify_waste_items`:
the chain is `if item.isWaste: ... elif item.expiryDate != "N/A": ...
elif item.usageLimit <= 0: ... elif 0 < item.usageLimit <= 3: ...`, so the
usage checks run only when the expiry field is the `"N/A"` sentinel.  Returns
the assigned reason (or `none`) and the possibly updated item. -/
def classifyWaste (current_date : ℤ) (item : Item) : Option Reason × Item :=
  if item.isWaste then
    let r :=
      if item.usageLimit ≤ 0 then Reason.outOfUses
      else match item.expiryDate with
        | .valid d => if d - current_date ≤ 0 then Reason.expired else Reason.manuallyMarked
        | .invalid => Reason.manuallyMarked
        | .na => Reason.manuallyMarked
    (some r, item)
  else
    match item.expiryDate with
    | .valid d =>
        let days := d - current_date
        if days ≤ 0 then (some Reason.expired, { item with isWaste := true })
        else if days ≤ 5 then (some (Reason.expiresIn days), { item with isWaste := true })
        else (none, item)
    | .invalid => (none, item)
    | .na =>
        if item.usageLimit ≤ 0 then (some Reason.outOfUses, { item with isWaste := true })
        else if item.usageLimit ≤ 3 then
          (some (Reason.usesRemaining item.usageLimit), { item with isWaste := true })
        else (none, item)

/-- The `WasteItem` record built for a classified item. -/
def mkWasteItem (item_id : String) (item : Item) (reason : Reason) : WasteItem :=
  match item.currentLocation with
  | some loc =>
      match loc.containerId with
      | some cid =>
          { itemId := item_id, name := item.name, reason := reason
            containerId := some cid, position := loc.position, mass := item.mass }
      | none =>
          { itemId := item_id, name := item.name, reason := reason
            containerId := none, position := none, mass := item.mass }
  | none =>
      { itemId := item_id, name := item.name, reason := reason
        containerId := none, position := none, mass := item.mass }

/-- `WasteService._sort_waste_by_urgency`'s scoring function
(`get_urgency_score`), translated against the structured reasons: the string
tests `"Expired" in reason` / `"Out of Uses" in reason` match exactly
`expired`/`outOfUses`, `"Expires in"` matches `expiresIn k` (whose embedded
number always parses back to `k`), `"uses remaining"` matches
`usesRemaining k`; `"Manually Marked"` matches no branch and keeps base 0. -/
def get_urgency_score (items : List (String × Item)) (w : WasteItem) : ℚ :=
  match items.lookup w.itemId with
  | none => 0
  | some item =>
      let base : ℚ :=
        match w.reason with
        | .expired => 100
        | .outOfUses => 100
        | .expiresIn k => 100 - (k : ℚ) * 10
        | .usesRemaining k => 50 - (k : ℚ) * 10
        | .manuallyMarked => 0
      base - min 30 ((item.priority : ℚ) / 3) + min 20 (item.mass * 2)

/-- `WasteService._sort_waste_by_urgency`: Python's stable
`sorted(..., reverse=True)` by the urgency score. -/
def sort_waste_by_urgency (waste_items : List WasteItem) (items : List (String × Item)) :
    List WasteItem :=
  waste_items.insertionSort
    (fun a b => get_urgency_score items b ≤ get_urgency_score items a)

/-- Grouping of waste items by `containerId` in first-seen dict order
(items without a container are excluded), as built by both waste step
generators (`container_items`). -/
def groupByContainer (waste_items : List WasteItem) : List (String × List WasteItem) :=
  waste_items.foldl
    (fun groups w =>
      match w.containerId with
      | none => groups
      | some cid =>
          if (groups.lookup cid).isSome then
            updateAssoc groups cid (fun l => l ++ [w])
          else groups ++ [(cid, [w])])
    []

/-- The position-based access-order key used by both waste step generators:
ascending `y`, then descending `z`, then ascending `x`.  Only evaluated when
every item of the group carries a position. -/
def accessKey (w : WasteItem) : ℚ × ℚ × ℚ :=
  match w.position with
  | some (px, py, pz) => (py, -pz, px)
  | none => (0, 0, 0)

/-- Lexicographic `≤` on triples of rationals, as Python compares key tuples. -/
def lexLe3 (a b : ℚ × ℚ × ℚ) : Bool :=
  decide (a.1 < b.1 ∨ (a.1 = b.1 ∧ (a.2.1 < b.2.1 ∨ (a.2.1 = b.2.1 ∧ a.2.2 ≤ b.2.2))))

/-- Sort a container group by the access order when all positions are known,
else keep the original order (both generators do this). -/
def sortGroup (l : List WasteItem) : List WasteItem :=
  if l.all (fun w => w.position.isSome) then
    l.insertionSort (fun a b => lexLe3 (accessKey a) (accessKey b))
  else l

/-- `WasteService._generate_optimized_waste_return_steps`: remove steps per
container group in access order, then remove steps for container-less items. -/
def generate_optimized_waste_return_steps (waste_items : List WasteItem) :
    List WasteReturnStep :=
  let groups := groupByContainer waste_items
  let phase1 := groups.foldl
    (fun (st : List WasteReturnStep × ℕ) g =>
      (sortGroup g.2).foldl
        (fun (st : List WasteReturnStep × ℕ) w =>
          (st.1 ++ [{ step := st.2, action := "remove", itemId := w.itemId
                      fromContainer := some g.1 }],
           st.2 + 1))
        st)
    ([], 1)
  let phase2 := (waste_items.filter (fun w => w.containerId = none)).foldl
    (fun (st : List WasteReturnStep × ℕ) w =>
      (st.1 ++ [{ step := st.2, action := "remove", itemId := w.itemId }], st.2 + 1))
    phase1
  phase2.1

/-- The knapsack value assigned to the `i`-th item of the urgency-sorted
waste list (`generate_waste_return_plan`): `0.7 ·` rank value `+ 0.3 ·`
mass value. -/
def knapsackValue (n : ℕ) (i : ℕ) (w : WasteItem) : ℚ :=
  let urgency_value : ℚ := 10 * (1 - (i : ℚ) / (max 1 (n : ℚ)))
  let mass_value : ℚ := min 10 (w.mass * 2)
  urgency_value * (7/10) + mass_value * (3/10)

/-- The knapsack DP state: `dp w` is the best value within scaled weight `w`,
`sel w` the selected item ids for that cell (the Python `selected_items[w]`
set, kept in insertion order). -/
structure KnapState where
  dp : ℕ → ℚ
  sel : ℕ → List String

/-- Python `set.add` on the insertion-order list model. -/
def setAdd (l : List String) (id : String) : List String :=
  if id ∈ l then l else l ++ [id]

/-- One item's pass over the DP table.  The source iterates
`for w in range(scaled_max_weight, scaled_mass - 1, -1)` updating in place;
since the indices written (`w`) are strictly above every index read later in
the pass (`w - scaled_mass < w` and `w` descends), every read observes the
pre-pass table, so the in-place pass equals this simultaneous update. -/
def knapsackStep (wmax : ℕ) (st : KnapState) (scaled_mass : ℤ) (value : ℚ)
    (item_id : String) : KnapState :=
  if scaled_mass ≤ 0 then st
  else
    let sm := scaled_mass.toNat
    { dp := fun w =>
        if sm ≤ w ∧ w ≤ wmax ∧ st.dp (w - sm) + value > st.dp w
        then st.dp (w - sm) + value else st.dp w
      sel := fun w =>
        if sm ≤ w ∧ w ≤ wmax ∧ st.dp (w - sm) + value > st.dp w
        then setAdd (st.sel (w - sm)) item_id else st.sel w }

/-- The filled DP table after processing the urgency-sorted waste list with
its enumerated values. -/
def knapsackRun (wmax : ℕ) (waste_items : List WasteItem) : KnapState :=
  let n := waste_items.length
  (waste_items.enum.foldl
    (fun st p =>
      knapsackStep wmax st ⌊p.2.mass * 100⌋ (knapsackValue n p.1 p.2) p.2.itemId)
    ⟨fun _ => 0, fun _ => []⟩)

/-- The `max_value_weight` scan: start at the capacity and walk down while
the cell's selection is empty, stopping at the first non-empty cell or 0. -/
def maxValueWeight (sel : ℕ → List String) : ℕ → ℕ
  | 0 => 0
  | w + 1 => if sel (w + 1) ≠ [] then w + 1 else maxValueWeight sel w

/-- The item ids selected by the knapsack in `generate_waste_return_plan`
(`final_selected_items`) for capacity `wmax = int(max_weight * 100)`. -/
def knapsackSelect (wmax : ℕ) (waste_items : List WasteItem) : List String :=
  let st := knapsackRun wmax waste_items
  st.sel (maxValueWeight st.sel wmax)

/-- The remove/place step pair emitted per selected item of a container
group in `generate_waste_return_plan`. -/
def wasteRemovePlaceStep (undocking_container_id cid : String)
    (st : List WasteReturnStep × ℕ) (w : WasteItem) : List WasteReturnStep × ℕ :=
  (st.1 ++
     [{ step := st.2, action := "remove", itemId := w.itemId
        fromContainer := some cid },
      { step := st.2 + 1, action := "place", itemId := w.itemId
        toContainer := some undocking_container_id }],
   st.2 + 2)

/-- One container group of `generate_waste_return_plan`: filter the group
for selected items, skip it when empty, else emit the pairs in access order. -/
def wasteGroupStep (final_selected_items : List String) (undocking_container_id : String)
    (st : List WasteReturnStep × ℕ) (g : String × List WasteItem) :
    List WasteReturnStep × ℕ :=
  let selected := g.2.filter (fun w => w.itemId ∈ final_selected_items)
  if selected = [] then st
  else (sortGroup selected).foldl (wasteRemovePlaceStep undocking_container_id g.1) st

/-- One selected container-less item of `generate_waste_return_plan`: a bare
place step into the undocking container. -/
def wasteBarePlaceStep (waste_items : List WasteItem) (undocking_container_id : String)
    (st : List WasteReturnStep × ℕ) (id : String) : List WasteReturnStep × ℕ :=
  match waste_items.find? (fun w => w.itemId = id) with
  | none => st
  | some w =>
      if w.containerId.isSome then st
      else
        (st.1 ++ [{ step := st.2, action := "place", itemId := id
                    toContainer := some undocking_container_id }],
         st.2 + 1)

/-- `WasteService.generate_waste_return_plan`: knapsack selection under the
scaled weight capacity, then remove/place step pairs per container group in
access order, then bare place steps for selected container-less items.
The iteration order of the Python sets `selected_items[w]` is unspecified;
it is modelled by insertion order, and no settled claim depends on it
(membership and step ordinals are order-independent). -/
def generate_waste_return_plan (waste_items : List WasteItem) (max_weight : ℚ)
    (undocking_container_id : String) : List WasteReturnStep :=
  if waste_items = [] then []
  else
    let container_items := groupByContainer waste_items
    let scaled_max_weight := (⌊max_weight * 100⌋).toNat
    let final_selected_items := knapsackSelect scaled_max_weight waste_items
    let phase1 := container_items.foldl
      (wasteGroupStep final_selected_items undocking_container_id) ([], 1)
    let phase2 := final_selected_items.foldl
      (wasteBarePlaceStep waste_items undocking_container_id) phase1
    phase2.1

/-- `WasteService.identify_waste_items`: classify every item (mutating the
store's `isWaste` flags), sort the waste list by urgency, and emit the
initial collection steps.  Returns the sorted waste list, the total mass,
the steps and the updated item store. -/
def identify_waste_items (items : List (String × Item))
    (_containers : List (String × Container)) (current_date : ℤ) :
    List WasteItem × ℚ × List WasteReturnStep × List (String × Item) :=
  -- the single pass of the source appends one waste record per classified
  -- item, adds its mass, and leaves every item's (possibly updated) state in
  -- the store; that is a filterMap / sum / map over the store in order
  let waste_items := items.filterMap
    (fun p =>
      match classifyWaste current_date p.2 with
      | (some r, item') => some (mkWasteItem p.1 item' r)
      | (none, _) => none)
  let total_mass := (waste_items.map (·.mass)).sum
  let items' := items.map (fun p => (p.1, (classifyWaste current_date p.2).2))
  let sorted := sort_waste_by_urgency waste_items items'
  let steps := generate_optimized_waste_return_steps sorted
  (sorted, total_mass, steps, items')

/-- Item ids mentioned by move/remove/place steps of an executed plan
(the `removed_item_ids` set of `complete_undocking`, in insertion order;
per-id mutations are independent, so the set's iteration order is
immaterial). -/
def removedItemIds (plan_steps : List WasteReturnStep) : List String :=
  plan_steps.foldl
    (fun acc s =>
      if s.action = "move" ∨ s.action = "remove" ∨ s.action = "place" then
        setAdd acc s.itemId
      else acc)
    []

/-- `WasteService.complete_undocking`: for every item mentioned in the plan,
detach it from its container (if any) and clear its location; returns the
number of mentioned ids together with the updated stores. -/
def complete_undocking (_waste_items : List WasteItem)
    (plan_steps : List WasteReturnStep)
    (items : List (String × Item)) (containers : List (String × Container)) :
    ℕ × List (String × Item) × List (String × Container) :=
  let ids := removedItemIds plan_steps
  let final := ids.foldl
    (fun (st : List (String × Item) × List (String × Container)) id =>
      match st.1.lookup id with
      | none => st
      | some item =>
          let containers' :=
            match locContainer item with
            | some cid =>
                if (st.2.lookup cid).isSome then
                  updateAssoc st.2 cid (fun c => c.remove_item id item.get_volume)
                else st.2
            | none => st.2
          (updateAssoc st.1 id (fun it => { it with currentLocation := none }),
           containers'))
    (items, containers)
  (ids.length, final.1, final.2)

/-! ### Placement service (`services/placement.py`) -/

/-- `get_weighted_score` inside `PlacementService.calculate_placement`:
`days_until_expiry` defaults to 365 (also on a parse failure) and the score
is `priority·2 − min(100, days) + min(100, usageLimit)·0.5`. -/
def get_weighted_score (current_date : ℤ) (item : Item) : ℚ :=
  let days : ℚ :=
    match item.expiryDate with
    | .valid d => ((max 0 (d - current_date) : ℤ) : ℚ)
    | .na => 365
    | .invalid => 365
  (item.priority : ℚ) * 2 - min 100 days + min 100 (item.usageLimit : ℚ) * (1/2)

/-- Lexicographic `≤` on pairs of rationals (Python tuple-key comparison). -/
def lexLe2 (a b : ℚ × ℚ) : Bool :=
  decide (a.1 < b.1 ∨ (a.1 = b.1 ∧ a.2 ≤ b.2))

/-- The item ordering of `calculate_placement`: stable sort ascending by the
key `(-weighted_score, -volume)`, i.e. highest score first, larger volume as
tiebreaker. -/
def sortItemsForPlacement (current_date : ℤ) (items : List Item) : List Item :=
  items.insertionSort (fun a b =>
    lexLe2 (-(get_weighted_score current_date a), -(a.get_volume))
           (-(get_weighted_score current_date b), -(b.get_volume)))

/-- The best (score, key, container, position, rotation) candidate found by
the container × rotation search of `calculate_placement` for one item, over
the current container states and space models.  `best_score` starts at
`-inf`, so the first candidate always wins and later ties keep the earlier
candidate (strict `>` test). -/
def bestPlacementFor (item : Item) (containers : List (String × Container))
    (spaces : List (String × Space3D)) :
    Option (ℚ × String × Container × (ℚ × ℚ × ℚ) × (ℚ × ℚ × ℚ)) :=
  containers.foldl
    (fun best p =>
      let (cid, cont) := p
      if cont.is_full then best
      else
        let base : ℚ := if cont.zone = item.preferredZone then 1000 else 0
        let space := (spaces.lookup cid).getD (Space3D.make cont.width cont.depth cont.height)
        item.get_all_rotations.foldl
          (fun best rot =>
            let (w, d, h) := rot
            if w > cont.width ∨ d > cont.depth ∨ h > cont.height then best
            else
              match space.find_position w d h with
              | none => best
              | some pos =>
                  let (x, y, z) := pos
                  let complexity := space.calculate_retrieval_complexity x y z w d h
                  let score := base + 500 * ((item.priority : ℚ) / 100) - (complexity : ℚ) * 50
                  match best with
                  | none => some (score, cid, cont, pos, rot)
                  | some b => if score > b.1 then some (score, cid, cont, pos, rot) else best)
          best)
    none

/-- The mutable state threaded through the placement loop: the per-container
space models, the container store, the item store, the emitted placements and
the `placed_items` set. -/
structure PlaceState where
  spaces : List (String × Space3D)
  containers : List (String × Container)
  items : List (String × Item)
  placements : List ItemPlacement
  placed_items : List String

/-- One iteration of the placement loop of `calculate_placement`: skip items
that already have a located `currentLocation`; otherwise search for the best
candidate and, if found, commit it to the space model, the container, the
item's location and the plan. -/
def placeOne (st : PlaceState) (item : Item) : PlaceState :=
  if (locContainer item).isSome then st
  else
    match bestPlacementFor item st.containers st.spaces with
    | none => st
    | some (_, cid, cont, pos, rot) =>
        let (x, y, z) := pos
        let (w, d, h) := rot
        { spaces := updateAssoc st.spaces cid (fun s => s.place_item x y z w d h)
          containers := updateAssoc st.containers cid
            (fun c => c.add_item item.itemId item.get_volume)
          items := updateAssoc st.items item.itemId
            (fun it => { it with currentLocation := some (CurrentLocation.mk (some cont.containerId) (some pos) (some rot)) })
          placements := st.placements ++
            [{ itemId := item.itemId, containerId := cont.containerId
               position := pos, rotation := rot }]
          placed_items := setAdd st.placed_items item.itemId }

/-- One candidate of the rearrangement inner loop: once enough volume has
been freed every further candidate is skipped (the source `break`s; since
the moved volume only grows, skipping is the same), otherwise a move step to
the first viable alternative container (or `"temporary_storage"`) is
emitted. -/
def rearrangeCandidateStep (containers : List (String × Container))
    (preferred_zone : String) (target_volume : ℚ)
    (st2 : ℚ × List RearrangementStep × ℕ) (cand : Item × Container) :
    ℚ × List RearrangementStep × ℕ :=
  let (moved_volume, steps, count) := st2
  if moved_volume ≥ target_volume then st2
  else
    let (it, cont) := cand
    let best_alt := containers.find? (fun q =>
      ¬(q.2.zone = preferred_zone ∨ q.2.is_full = true ∨
        it.get_volume > q.2.get_available_space))
    let toC :=
      match best_alt with
      | some q => q.2.containerId
      | none => "temporary_storage"
    (moved_volume + it.get_volume,
     steps ++ [{ step := count, action := "move", itemId := it.itemId
                 fromContainer := some cont.containerId
                 toContainer := some toC }],
     count + 1)

/-- The candidate list of one rearrangement target: lower-priority items
held by containers of the preferred zone, in container/`items` order, sorted
ascending by value density `priority / max(0.1, volume)` (Python's stable
`list.sort`). -/
def sortedCandidatesFor (all_items : List (String × Item))
    (containers : List (String × Container)) (target : Item) :
    List (Item × Container) :=
  let preferred_zone := target.preferredZone
  let low_priority_candidates := containers.foldl
    (fun acc p =>
      let (_, cont) := p
      if cont.zone ≠ preferred_zone then acc
      else
        acc ++ cont.items.foldl
          (fun acc2 iid =>
            match all_items.lookup iid with
            | some it =>
                if it.priority < target.priority then acc2 ++ [(it, cont)] else acc2
            | none => acc2)
          [])
    ([] : List (Item × Container))
  low_priority_candidates.insertionSort (fun a b =>
    (a.1.priority : ℚ) / max (1/10) a.1.get_volume ≤
      (b.1.priority : ℚ) / max (1/10) b.1.get_volume)

/-- One high-priority unplaced target of `_generate_rearrangement_plan`:
gather lower-priority candidates from containers of the preferred zone, move
the cheapest ones until the target volume is freed, then emit a place step
when enough volume was freed and a preferred container exists. -/
def rearrangeForTarget (all_items : List (String × Item))
    (containers : List (String × Container))
    (st : List RearrangementStep × ℕ) (target : Item) :
    List RearrangementStep × ℕ :=
  let preferred_zone := target.preferredZone
  let sorted_cands := sortedCandidatesFor all_items containers target
  let target_volume := target.get_volume
  let inner := sorted_cands.foldl
    (rearrangeCandidateStep containers preferred_zone target_volume) (0, st.1, st.2)
  let (moved_volume, steps, count) := inner
  if moved_volume ≥ target_volume then
    let preferred_containers := containers.filter (fun q => q.2.zone = preferred_zone)
    match preferred_containers with
    | [] => (steps, count)
    | q :: _ =>
        (steps ++ [{ step := count, action := "place", itemId := target.itemId
                     toContainer := some q.2.containerId }],
         count + 1)
  else (steps, count)

/-- `PlacementService._generate_rearrangement_plan`. -/
def generate_rearrangement_plan (unplaced_items : List Item)
    (all_items : List (String × Item)) (containers : List (String × Container)) :
    List RearrangementStep :=
  let high_priority_unplaced :=
    (unplaced_items.insertionSort (fun a b => b.priority ≤ a.priority)).take 5
  let result := high_priority_unplaced.foldl
    (rearrangeForTarget all_items containers) ([], 1)
  result.1

/-- `PlacementService.calculate_placement`: fresh (empty) space models per
container, priority-ordered placement loop, then rearrangement planning for
unplaced items.  Returns the response and the updated item and container
stores.  (The source reads the wall clock for `current_date`; it is passed
explicitly here.) -/
def calculate_placement (current_date : ℤ) (items : List (String × Item))
    (containers : List (String × Container)) :
    PlacementResponse × List (String × Item) × List (String × Container) :=
  let container_spaces := containers.map
    (fun p => (p.1, Space3D.make p.2.width p.2.depth p.2.height))
  let sorted_items := sortItemsForPlacement current_date (items.map Prod.snd)
  let final := sorted_items.foldl placeOne
    ⟨container_spaces, containers, items, [], []⟩
  let unplaced_items := sorted_items.filter
    (fun it => it.itemId ∉ final.placed_items ∧ locContainer it = none)
  let rearrangements :=
    if unplaced_items ≠ [] then
      generate_rearrangement_plan unplaced_items final.items final.containers
    else []
  (⟨final.placements, rearrangements⟩, final.items, final.containers)

/-! ### Simulation (`services/simulation.py` and the `app.py` handler) -/

/-- Whether an item expires during the simulated interval `(current, new]`:
not yet waste, parseable expiry, `expiry ≤ new_date` and `expiry > current`. -/
def expiresNow (current_date new_date : ℤ) (item : Item) : Bool :=
  !item.isWaste &&
    (match item.expiryDate with
     | .valid d => decide (d ≤ new_date ∧ d > current_date)
     | .na => false
     | .invalid => false)

/-- `SimulationService.simulate_days`: advance the date and mark items whose
parseable expiry falls inside `(current_date, new_date]` as waste, recording
them with reason "Expired". -/
def simulation_simulate_days (num_days : ℤ) (current_date : ℤ)
    (items : List (String × Item)) : ℤ × List (String × Item) × List WasteItem :=
  let new_date := current_date + num_days
  -- the loop of the source marks exactly the items expiring in the interval
  -- and collects one waste record per such item, in store order
  let updated := items.map
    (fun p =>
      (p.1, if expiresNow current_date new_date p.2
            then { p.2 with isWaste := true } else p.2))
  let waste := items.filterMap
    (fun p =>
      if expiresNow current_date new_date p.2 then
        some { itemId := p.1, name := p.2.name, reason := Reason.expired
               containerId := locContainer p.2
               position := p.2.currentLocation.bind (·.position)
               mass := p.2.mass }
      else none)
  (new_date, updated, waste)

/-- Update the first list entry with the given item id (the `app.py` loops
over `items_list` `break` after the first match). -/
def updateFirstItem (l : List Item) (id : String) (f : Item → Item) : List Item :=
  match l with
  | [] => []
  | it :: rest =>
      if it.itemId = id then f it :: rest else it :: updateFirstItem rest id f

/-- The core of the `app.py` `/api/simulate/day` handler (`simulate_days`):
build the object map, decrement usage for `itemsToBeUsedPerDay` (writing
`usageLimit` and — on depletion — `isWaste=true` into the persisted list),
run the simulation service, then copy every object's `isWaste` flag back
into the persisted list.  Returns the new date, the persisted list, and the
expired / usage-depleted classifications of the response. -/
def appSimulateDays (items_list : List Item) (days : ℤ)
    (items_to_use : List String) (current_date : ℤ) :
    ℤ × List Item × List WasteItem × List WasteItem :=
  let items_data := items_list.map (fun it => (it.itemId, it))
  let phase1 := items_to_use.foldl
    (fun (st : List (String × Item) × List Item) id =>
      match st.1.lookup id with
      | none => st
      | some it =>
          if it.usageLimit > 0 then
            let u := it.usageLimit - 1
            (updateAssoc st.1 id (fun it' => { it' with usageLimit := u }),
             updateFirstItem st.2 id (fun rec =>
               { rec with usageLimit := u,
                          isWaste := if u ≤ 0 then true else rec.isWaste }))
          else st)
    (items_data, items_list)
  let (items_data', items_list') := phase1
  let sim := simulation_simulate_days days current_date items_data'
  let (new_date, updated_items, waste_items) := sim
  let items_list'' := updated_items.foldl
    (fun l p => updateFirstItem l p.1 (fun rec => { rec with isWaste := p.2.isWaste }))
    items_list'
  (new_date, items_list'',
   waste_items.filter (fun w => w.reason = Reason.expired),
   waste_items.filter (fun w => w.reason = Reason.outOfUses))

/-! ### Step ordinals -/

/-- The step ordinals of a rearrangement plan, in list order. -/
def stepNums (l : List RearrangementStep) : List ℕ := l.map (·.step)

/-- The step ordinals of a waste-return plan, in list order. -/
def wasteStepNums (l : List WasteReturnStep) : List ℕ := l.map (·.step)

/-- The invariant threaded through every plan emitter: the steps emitted so
far carry the ordinals `1, …, n` in order, and the counter holds `n + 1`. -/
def StepInv (steps : List RearrangementStep) (count : ℕ) : Prop :=
  stepNums steps = List.range' 1 steps.length ∧ count = steps.length + 1

/-- `StepInv` for waste-return steps. -/
def WStepInv (steps : List WasteReturnStep) (count : ℕ) : Prop :=
  wasteStepNums steps = List.range' 1 steps.length ∧ count = steps.length + 1

/-- Waste-flag monotonicity between an item store and its successor: every
item that was flagged `isWaste` is still present under its id and still
flagged. -/
def WasteMonotone (before after : List (String × Item)) : Prop :=
  ∀ (id : String) (it : Item), before.lookup id = some it → it.isWaste = true →
    ∃ it', after.lookup id = some it' ∧ it'.isWaste = true

/-! ### Concrete scenario data used by counterexamples and witnesses -/

/-- The identity enumeration of `moved_to_temp` (insertion order). -/
def idOrder : List (String × String) → List (String × String) := fun l => l

/-- Scenario S3's target: item `X`, `20×20×20`, stored in `C1` at `(0,50,0)`. -/
def itemX : Item :=
  { itemId := "X", name := "X", width := 20, depth := 20, height := 20, mass := 1
    priority := 50, expiryDate := .na, usageLimit := 10, preferredZone := "Z"
    isWaste := false
    currentLocation := some ⟨some "C1", some (0, 50, 0), some (20, 20, 20)⟩ }

/-- Scenario S3's other item: `Y`, `20×50×20`, stored in `C1` at `(0,0,0)`. -/
def itemY : Item :=
  { itemId := "Y", name := "Y", width := 20, depth := 50, height := 20, mass := 1
    priority := 50, expiryDate := .na, usageLimit := 10, preferredZone := "Z"
    isWaste := false
    currentLocation := some ⟨some "C1", some (0, 0, 0), some (20, 50, 20)⟩ }

/-- Scenario S3's container: `C1`, `100×100×100`. -/
def contC1 : Container :=
  { containerId := "C1", zone := "Z", width := 100, depth := 100, height := 100
    occupiedSpace := 58000, items := ["X", "Y"] }

def s3Items : List (String × Item) := [("X", itemX), ("Y", itemY)]

def s3Containers : List (String × Container) := [("C1", contC1)]

/-- Retrieval target `T`, `10×10×10` at `(0,0,0)` of container `C2`. -/
def itemT : Item :=
  { itemId := "T", name := "T", width := 10, depth := 10, height := 10, mass := 1
    priority := 50, expiryDate := .na, usageLimit := 10, preferredZone := "Z"
    isWaste := false
    currentLocation := some ⟨some "C2", some (0, 0, 0), some (10, 10, 10)⟩ }

/-- Blocker `B1`, `10×10×10` at `(0,10,0)` of container `C2`. -/
def itemB1 : Item :=
  { itemId := "B1", name := "B1", width := 10, depth := 10, height := 10, mass := 1
    priority := 50, expiryDate := .na, usageLimit := 10, preferredZone := "Z"
    isWaste := false
    currentLocation := some ⟨some "C2", some (0, 10, 0), some (10, 10, 10)⟩ }

/-- Blocker `B2`, `10×10×10` at `(0,30,0)` of container `C2`. -/
def itemB2 : Item :=
  { itemId := "B2", name := "B2", width := 10, depth := 10, height := 10, mass := 1
    priority := 50, expiryDate := .na, usageLimit := 10, preferredZone := "Z"
    isWaste := false
    currentLocation := some ⟨some "C2", some (0, 30, 0), some (10, 10, 10)⟩ }

def contC2 : Container :=
  { containerId := "C2", zone := "Z", width := 100, depth := 100, height := 100
    occupiedSpace := 3000, items := ["T", "B1", "B2"] }

def blockItems : List (String × Item) := [("T", itemT), ("B1", itemB1), ("B2", itemB2)]

def blockContainers : List (String × Container) := [("C2", contC2)]

/-- An item with `usageLimit = 0`, not yet waste, whose parseable expiry lies
100 days in the future (relative to day 0). -/
def itemFarFuture : Item :=
  { itemId := "F", name := "F", width := 1, depth := 1, height := 1, mass := 1
    priority := 50, expiryDate := .valid 100, usageLimit := 0, preferredZone := "Z"
    isWaste := false, currentLocation := none }

/-- Usage-depletion scenario S5's item `U`: `usageLimit = 1`, not waste. -/
def itemU : Item :=
  { itemId := "U", name := "U", width := 1, depth := 1, height := 1, mass := 1
    priority := 50, expiryDate := .na, usageLimit := 1, preferredZone := "Z"
    isWaste := false, currentLocation := none }

/-- A waste item of mass 0.019 kg (1.9 centigrams — not a whole centigram). -/
def wasteW : WasteItem :=
  { itemId := "W", name := "W", reason := Reason.outOfUses
    containerId := some "CW", position := some (0, 0, 0), mass := 19/1000 }

/-- A `6×6×6` container of zone `Z` for the placement idempotence scenario. -/
def contCC : Container :=
  { containerId := "CC", zone := "Z", width := 6, depth := 6, height := 6
    occupiedSpace := 0, items := [] }

/-- A `5×5×5` high-priority item (placed by the first planner call). -/
def itemA : Item :=
  { itemId := "A", name := "A", width := 5, depth := 5, height := 5, mass := 1
    priority := 100, expiryDate := .na, usageLimit := 10, preferredZone := "Z"
    isWaste := false, currentLocation := none }

/-- A `3×3×3` low-priority item (left unplaced by the first planner call). -/
def itemB : Item :=
  { itemId := "B", name := "B", width := 3, depth := 3, height := 3, mass := 1
    priority := 1, expiryDate := .na, usageLimit := 10, preferredZone := "Z"
    isWaste := false, currentLocation := none }

/-- An item with `usageLimit = 0`, the `"N/A"` expiry and `isWaste = false`. -/
def itemG : Item :=
  { itemId := "G", name := "G", width := 1, depth := 1, height := 1, mass := 1
    priority := 50, expiryDate := .na, usageLimit := 0, preferredZone := "Z"
    isWaste := false, currentLocation := none }

/-- An item already flagged as waste. -/
def itemPreWaste : Item :=
  { itemId := "P", name := "P", width := 1, depth := 1, height := 1, mass := 1
    priority := 50, expiryDate := .na, usageLimit := 0, preferredZone := "Z"
    isWaste := true, currentLocation := none }

/-! ## Theorems -/

/-- Claim C1, counterexample: for the S3 configuration (container `C1`
100×100×100, target `X` at `(0,50,0)` rotation `(20,20,20)`, item `Y` at
`(0,0,0)` rotation `(20,50,20)`), the retrieval plan produced for `X` does
not have three steps: `Y` is skipped by the `other_y < y` test. -/
theorem retrieval_s3_not_three_steps :
    ¬ ((retrieve_item idOrder "X" "user" s3Items s3Containers).2.1.length = 3) := by
  with_unfolding_all decide

/-- Claim C1, amended: for the S3 configuration the retrieval plan for `X`
is exactly one step, retrieving `X` from `C1`; `Y` is not reported as a
blocker because its minimum y-coordinate 0 is smaller than the target's 50
(the code treats only items at the same or larger `y` as blockers). -/
theorem retrieval_s3_single_step :
    (retrieve_item idOrder "X" "user" s3Items s3Containers).2.1 =
      [{ step := 1, action := "retrieve", itemId := "X", fromContainer := some "C1" }] ∧
    (calculate_retrieval_complexity itemX contC1 (0, 50, 0) (20, 20, 20) s3Items).2 = [] := by
  with_unfolding_all decide

/-- Claim C3, counterexample: an item that is not yet waste, has
`usageLimit = 0` and a parseable expiry 100 days in the future is *not*
included in the waste list at all (the expiry `elif` branch swallows it
before the usage check can run), and its `isWaste` flag stays false. -/
theorem waste_far_future_not_classified :
    itemFarFuture.usageLimit = 0 ∧ itemFarFuture.isWaste = false ∧
    (identify_waste_items [("F", itemFarFuture)] [] 0).1 = [] ∧
    (identify_waste_items [("F", itemFarFuture)] [] 0).2.2.2 = [("F", itemFarFuture)] := by
  with_unfolding_all decide

/-- Claim C4: the usage-depletion scenario S5 diverges from the claim.  For
item `U` with `usageLimit = 1`, `simulate(days = 0, itemsToUse = ["U"])`
leaves the persisted store with `usageLimit = 0` but `isWaste = false` (the
flag written by the usage loop is overwritten with the stale object flag),
and the `usageDepletedItems` classification of the response is empty (only
the simulation service's "Expired" records are ever classified). -/
theorem simulate_usage_depletion_divergence :
    (appSimulateDays [itemU] 0 ["U"] 0).2.1 = [{ itemU with usageLimit := 0 }] ∧
    ({ itemU with usageLimit := 0 } : Item).isWaste = false ∧
    (appSimulateDays [itemU] 0 ["U"] 0).2.2.2 = [] := by
  with_unfolding_all decide

/-- Claim C5: the move-back order of a retrieval plan depends on the
iteration order of the Python set `moved_to_temp`, which the language leaves
unspecified.  For target `T` with blockers `B1`, `B2` (moved aside in order
`B2`, `B1`), the insertion-order enumeration restores in reverse order
(`B1`, `B2`), but the reversed enumeration — an equally valid set order,
being a permutation — restores in the *same* order as the move-aside steps,
contradicting the claimed exact-reverse shape. -/
theorem retrieval_restore_order_set_dependent :
    (generate_optimized_retrieval_steps idOrder itemT contC2 (0, 0, 0) (10, 10, 10)
      blockItems blockContainers).map (·.itemId) = ["B2", "B1", "T", "B1", "B2"] ∧
    (generate_optimized_retrieval_steps List.reverse itemT contC2 (0, 0, 0) (10, 10, 10)
      blockItems blockContainers).map (·.itemId) = ["B2", "B1", "T", "B2", "B1"] ∧
    ([("B2", "temporary_storage"), ("B1", "temporary_storage")].reverse).Perm
      [("B2", "temporary_storage"), ("B1", "temporary_storage")] := by
  with_unfolding_all decide

/-- Claim C6, counterexample: with a single waste item of mass 0.019 kg and
`max_weight = 0.01` kg, the knapsack selects the item (its truncated scaled
weight `int(0.019·100) = 1` fits the scaled capacity `int(0.01·100) = 1`),
so the emitted return plan moves it even though its true mass exceeds the
weight limit. -/
theorem waste_return_mass_exceeds_limit :
    generate_waste_return_plan [wasteW] (1/100) "U" =
      [{ step := 1, action := "remove", itemId := "W", fromContainer := some "CW" },
       { step := 2, action := "place", itemId := "W", toContainer := some "U" }] ∧
    wasteW.mass > 1/100 := by
  with_unfolding_all decide

/-- Claim C10: placement is not idempotent.  First call on items `A`
(5×5×5, priority 100) and `B` (3×3×3, priority 1) with the single 6×6×6
container `CC` places only `A`; the second call on the resulting stores —
with no new items — emits a further placement for `B` at `(0,0,0)` (each
call rebuilds empty space models without re-registering located items, so
`B` is even placed overlapping `A`). -/
theorem placement_second_call_places_unplaced :
    ((calculate_placement 0 [("A", itemA), ("B", itemB)] [("CC", contCC)]).1.placements).map
        (·.itemId) = ["A"] ∧
    (calculate_placement 0
        (calculate_placement 0 [("A", itemA), ("B", itemB)] [("CC", contCC)]).2.1
        (calculate_placement 0 [("A", itemA), ("B", itemB)] [("CC", contCC)]).2.2).1.placements =
      [{ itemId := "B", containerId := "CC", position := (0, 0, 0), rotation := (3, 3, 3) }] := by
  with_unfolding_all decide

/-- Claim C9: when the requested id is absent from the item store, or the
stored item has no located `currentLocation`, `retrieve_item` returns the
not-found flag with an empty step list and leaves both stores untouched. -/
theorem retrieve_not_found_no_mutation
    (setOrder : List (String × String) → List (String × String))
    (item_id user_id : String)
    (items : List (String × Item)) (containers : List (String × Container))
    (h : items.lookup item_id = none ∨
         ∃ it, items.lookup item_id = some it ∧ locContainer it = none) :
    retrieve_item setOrder item_id user_id items containers =
      (false, [], items, containers) := by
  rcases h with h1 | ⟨it, h1, h2⟩
  · unfold retrieve_item
    rw [h1]
  · unfold retrieve_item
    rw [h1]
    simp only [h2]

/-- Witness for C9: a concrete application on an empty store. -/
theorem retrieve_not_found_no_mutation_check :
    retrieve_item idOrder "M" "user" [] [] = (false, [], [], []) :=
  retrieve_not_found_no_mutation idOrder "M" "user" [] [] (Or.inl rfl)

/-- In an association list with no duplicate keys, a key determines its value. -/
lemma assoc_value_unique {α : Type} :
    ∀ (l : List (String × α)), (l.map Prod.fst).Nodup →
      ∀ (k : String) (a b : α), (k, a) ∈ l → (k, b) ∈ l → a = b := by
  intro l
  induction l with
  | nil => intro _ k a b ha _; cases ha
  | cons p rest ih =>
      intro hnd k a b ha hb
      rw [List.map_cons, List.nodup_cons] at hnd
      rcases List.mem_cons.mp ha with ha1 | ha1 <;>
        rcases List.mem_cons.mp hb with hb1 | hb1
      · have : (k, a) = (k, b) := by rw [ha1, hb1]
        exact congrArg Prod.snd this
      · exfalso
        apply hnd.1
        have : k = p.1 := by rw [← ha1]
        rw [← this]
        exact List.mem_map.mpr ⟨(k, b), hb1, rfl⟩
      · exfalso
        apply hnd.1
        have : k = p.1 := by rw [← hb1]
        rw [← this]
        exact List.mem_map.mpr ⟨(k, a), ha1, rfl⟩
      · exact ih hnd.2 k a b ha1 hb1

/-- Claim C2: an item of the target's container is reported as a blocker iff
its minimum y-coordinate is at least the target's, its half-open x-interval
overlaps the target's x-interval, and its half-open z-interval overlaps the
target's z-interval. -/
theorem blocker_iff_y_and_overlap
    (items : List (String × Item)) (target : Item) (cont : Container)
    (x y z tw td th : ℚ) (oid : String) (o : Item) (loc : CurrentLocation)
    (ox oy oz ow od oh : ℚ)
    (hnd : (items.map Prod.fst).Nodup)
    (hmem : (oid, o) ∈ items)
    (hne : oid ≠ target.itemId)
    (hloc : o.currentLocation = some loc)
    (hcid : loc.containerId = some cont.containerId)
    (hpos : locPosition loc = (ox, oy, oz))
    (hrot : locRotation o loc = (ow, od, oh)) :
    (∃ e ∈ (calculate_retrieval_complexity target cont (x, y, z) (tw, td, th) items).2,
        e.itemId = oid) ↔
      (y ≤ oy ∧ (ox < x + tw ∧ x < ox + ow) ∧ (oz < z + th ∧ z < oz + oh)) := by
  simp only [calculate_retrieval_complexity]
  simp only [List.mem_insertionSort, List.mem_map, List.mem_filter, containerItemsOf]
  constructor
  · rintro ⟨e, ⟨a, ⟨⟨p, ⟨hp_mem, hp_cond⟩, ha⟩, hblocks⟩, he⟩, heid⟩
    subst ha
    subst he
    simp only at heid
    have hpo : p = (oid, p.2) := by
      rw [← heid]
    have hval : p.2 = o := by
      have : (oid, p.2) ∈ items := by rw [← hpo]; exact hp_mem
      exact assoc_value_unique items hnd oid p.2 o this hmem
    rw [hval, hloc] at hblocks
    simp only [blocksTarget, Option.getD_some, hpos, hrot] at hblocks
    simp only [Bool.and_eq_true, Bool.not_eq_true', decide_eq_false_iff_not,
      decide_eq_true_eq, or_self] at hblocks
    refine ⟨not_lt.mp hblocks.1.1, ?_, ?_⟩
    · rcases hblocks.1.2 with h | h
      · exact h
      · exact ⟨h.2, h.1⟩
    · rcases hblocks.2 with h | h
      · exact h
      · exact ⟨h.2, h.1⟩
  · intro hrhs
    refine ⟨_, ⟨_, ⟨⟨(oid, o), ⟨hmem, ?_⟩, rfl⟩, ?_⟩, rfl⟩, ?_⟩
    · simp only [decide_eq_true_eq]
      refine ⟨hne, ?_⟩
      simp [locContainer, hloc, hcid]
    · simp only [hloc, Option.getD_some]
      simp only [blocksTarget, hpos, hrot]
      simp only [Bool.and_eq_true, Bool.not_eq_true', decide_eq_false_iff_not,
        decide_eq_true_eq, or_self]
      exact ⟨⟨not_lt.mpr hrhs.1, Or.inl hrhs.2.1⟩, Or.inl hrhs.2.2⟩
    · rfl

/-- Witness for C2: the blocking criterion applied to blocker `B1` of the
concrete two-blocker container. -/
theorem blocker_iff_y_and_overlap_check :
    (∃ e ∈ (calculate_retrieval_complexity itemT contC2 (0, 0, 0) (10, 10, 10) blockItems).2,
        e.itemId = "B1") ↔
      ((0 : ℚ) ≤ 10 ∧ ((0 : ℚ) < 0 + 10 ∧ (0 : ℚ) < 0 + 10) ∧
        ((0 : ℚ) < 0 + 10 ∧ (0 : ℚ) < 0 + 10)) :=
  blocker_iff_y_and_overlap blockItems itemT contC2 0 0 0 10 10 10 "B1" itemB1
    ⟨some "C2", some (0, 10, 0), some (10, 10, 10)⟩ 0 10 0 10 10 10
    (by with_unfolding_all decide) (by with_unfolding_all decide)
    (by with_unfolding_all decide) (by with_unfolding_all decide)
    (by with_unfolding_all decide) (by with_unfolding_all decide)
    (by with_unfolding_all decide)

/-- In an association list with no duplicate keys, membership determines the
lookup result. -/
lemma lookup_of_mem_nodup {α : Type} :
    ∀ (l : List (String × α)), (l.map Prod.fst).Nodup →
      ∀ (k : String) (a : α), (k, a) ∈ l → l.lookup k = some a := by
  intro l
  induction l with
  | nil => intro _ k a h; cases h
  | cons p rest ih =>
      intro hnd k a h
      obtain ⟨pk, pv⟩ := p
      rw [List.map_cons, List.nodup_cons] at hnd
      rcases List.mem_cons.mp h with h1 | h1
      · rw [Prod.mk.injEq] at h1
        obtain ⟨h1k, h1v⟩ := h1
        subst h1k
        subst h1v
        simp [List.lookup]
      · have hk : ¬(k = pk) := by
          intro he
          apply hnd.1
          rw [← he]
          exact List.mem_map.mpr ⟨(k, a), h1, rfl⟩
        have hbeq : (k == pk) = false := by simp [hk]
        simp only [List.lookup, hbeq]
        exact ih hnd.2 k a h1

/-- Looking up in a value-mapped association list. -/
lemma lookup_map_values {α β : Type} (g : α → β) :
    ∀ (l : List (String × α)) (k : String),
      (l.map (fun p => (p.1, g p.2))).lookup k = (l.lookup k).map g := by
  intro l
  induction l with
  | nil => intro k; rfl
  | cons p rest ih =>
      intro k
      obtain ⟨pk, pv⟩ := p
      by_cases hk : k = pk
      · subst hk
        simp [List.lookup]
      · have hbeq : (k == pk) = false := by simp [hk]
        simp only [List.map_cons, List.lookup, hbeq]
        exact ih k

lemma mkWasteItem_itemId (i : String) (it : Item) (r : Reason) :
    (mkWasteItem i it r).itemId = i := by
  unfold mkWasteItem
  cases it.currentLocation with
  | none => rfl
  | some loc =>
      obtain ⟨c, p, rt⟩ := loc
      cases c <;> rfl

lemma mkWasteItem_reason (i : String) (it : Item) (r : Reason) :
    (mkWasteItem i it r).reason = r := by
  unfold mkWasteItem
  cases it.currentLocation with
  | none => rfl
  | some loc =>
      obtain ⟨c, p, rt⟩ := loc
      cases c <;> rfl

/-- Claim C3, amended: an item that is not yet waste with `usageLimit = 0`
*and the "N/A" expiry sentinel* is classified "Out of Uses" by waste
identification and its `isWaste` flag is set; with a parseable expiry date
the expiry branch takes precedence (see the counterexample for the
far-future case). -/
theorem outOfUses_classified_when_na_expiry
    (items : List (String × Item)) (containers : List (String × Container))
    (d : ℤ) (id : String) (item : Item)
    (hnd : (items.map Prod.fst).Nodup)
    (hmem : (id, item) ∈ items)
    (hw : item.isWaste = false)
    (hu : item.usageLimit = 0)
    (hex : item.expiryDate = EDate.na) :
    (∃ w ∈ (identify_waste_items items containers d).1,
        w.itemId = id ∧ w.reason = Reason.outOfUses) ∧
    (∃ it', ((identify_waste_items items containers d).2.2.2).lookup id = some it' ∧
        it'.isWaste = true) := by
  have hclass : classifyWaste d item = (some Reason.outOfUses, { item with isWaste := true }) := by
    simp [classifyWaste, hw, hu, hex]
  constructor
  · refine ⟨mkWasteItem id { item with isWaste := true } Reason.outOfUses, ?_, ?_, ?_⟩
    · simp only [identify_waste_items, sort_waste_by_urgency]
      rw [List.mem_insertionSort]
      exact List.mem_filterMap.mpr ⟨(id, item), hmem, by rw [hclass]⟩
    · exact mkWasteItem_itemId _ _ _
    · exact mkWasteItem_reason _ _ _
  · refine ⟨{ item with isWaste := true }, ?_, rfl⟩
    simp only [identify_waste_items]
    rw [lookup_map_values (fun it => (classifyWaste d it).2) items id,
      lookup_of_mem_nodup items hnd id item hmem]
    simp [hclass]

/-- Witness for C3's amended claim: the not-yet-waste item `G` with
`usageLimit = 0` and the "N/A" expiry sentinel. -/
theorem outOfUses_classified_when_na_expiry_check :
    (∃ w ∈ (identify_waste_items [("G", itemG)] [] 0).1,
        w.itemId = "G" ∧ w.reason = Reason.outOfUses) ∧
    (∃ it', ((identify_waste_items [("G", itemG)] [] 0).2.2.2).lookup "G" = some it' ∧
        it'.isWaste = true) :=
  outOfUses_classified_when_na_expiry [("G", itemG)] [] 0 "G" itemG
    (by with_unfolding_all decide) (by with_unfolding_all decide)
    (by with_unfolding_all decide) (by with_unfolding_all decide)
    (by with_unfolding_all decide)

lemma range'_concat_one : ∀ (s n : ℕ), List.range' s (n + 1) = List.range' s n ++ [s + n] := by
  intro s n
  induction n generalizing s with
  | zero => simp [List.range']
  | succ m ih =>
      rw [List.range'_succ, ih (s + 1), List.range'_succ]
      simp [List.cons_append]
      omega

lemma foldl_preserve {σ α : Type} (P : σ → Prop) (f : σ → α → σ)
    (hf : ∀ s a, P s → P (f s a)) :
    ∀ (l : List α) (s : σ), P s → P (l.foldl f s) := by
  intro l
  induction l with
  | nil => intro s hs; exact hs
  | cons a rest ih => intro s hs; exact ih (f s a) (hf s a hs)

lemma stepInv_nil : StepInv [] 1 := ⟨rfl, rfl⟩

lemma wStepInv_nil : WStepInv [] 1 := ⟨rfl, rfl⟩

lemma stepInv_append {steps : List RearrangementStep} {count : ℕ}
    {s : RearrangementStep} (h : StepInv steps count) (hs : s.step = count) :
    StepInv (steps ++ [s]) (count + 1) := by
  obtain ⟨h1, h2⟩ := h
  constructor
  · show (steps ++ [s]).map (·.step) = List.range' 1 (steps ++ [s]).length
    rw [List.map_append, List.length_append]
    show stepNums steps ++ [s.step] = List.range' 1 (steps.length + 1)
    rw [range'_concat_one, h1, hs, h2]
    simp [Nat.add_comm]
  · simp [h2, List.length_append]

lemma wStepInv_append {steps : List WasteReturnStep} {count : ℕ}
    {s : WasteReturnStep} (h : WStepInv steps count) (hs : s.step = count) :
    WStepInv (steps ++ [s]) (count + 1) := by
  obtain ⟨h1, h2⟩ := h
  constructor
  · show (steps ++ [s]).map (·.step) = List.range' 1 (steps ++ [s]).length
    rw [List.map_append, List.length_append]
    show wasteStepNums steps ++ [s.step] = List.range' 1 (steps.length + 1)
    rw [range'_concat_one, h1, hs, h2]
    simp [Nat.add_comm]
  · simp [h2, List.length_append]

lemma wStepInv_append2 {steps : List WasteReturnStep} {count : ℕ}
    {s1 s2 : WasteReturnStep} (h : WStepInv steps count)
    (hs1 : s1.step = count) (hs2 : s2.step = count + 1) :
    WStepInv (steps ++ [s1, s2]) (count + 2) := by
  have h' := wStepInv_append (wStepInv_append h hs1) hs2
  rw [List.append_assoc] at h'
  exact h'

lemma moveBlockerStep_inv (items : List (String × Item)) (container : Container)
    (st : List RearrangementStep × ℕ × List (String × String) × List AvailEntry)
    (be : BlockEntry) (h : StepInv st.1 st.2.1) :
    StepInv (moveBlockerStep items container st be).1
      (moveBlockerStep items container st be).2.1 := by
  obtain ⟨steps, count, moved, avail⟩ := st
  unfold moveBlockerStep
  dsimp only
  exact stepInv_append h rfl

lemma restoreBlockerStep_inv (container : Container)
    (st : List RearrangementStep × ℕ) (mv : String × String)
    (h : StepInv st.1 st.2) :
    StepInv (restoreBlockerStep container st mv).1 (restoreBlockerStep container st mv).2 := by
  unfold restoreBlockerStep
  exact stepInv_append h rfl

lemma wasteRemovePlaceStep_inv (uid cid : String)
    (st : List WasteReturnStep × ℕ) (w : WasteItem) (h : WStepInv st.1 st.2) :
    WStepInv (wasteRemovePlaceStep uid cid st w).1 (wasteRemovePlaceStep uid cid st w).2 := by
  unfold wasteRemovePlaceStep
  exact wStepInv_append2 h rfl rfl

lemma wasteGroupStep_inv (sel : List String) (uid : String)
    (st : List WasteReturnStep × ℕ) (g : String × List WasteItem)
    (h : WStepInv st.1 st.2) :
    WStepInv (wasteGroupStep sel uid st g).1 (wasteGroupStep sel uid st g).2 := by
  unfold wasteGroupStep
  dsimp only
  split
  · exact h
  · exact foldl_preserve (fun s => WStepInv s.1 s.2) _
      (fun s a hs => wasteRemovePlaceStep_inv uid g.1 s a hs) _ st h

lemma wasteBarePlaceStep_inv (waste_items : List WasteItem) (uid : String)
    (st : List WasteReturnStep × ℕ) (id : String) (h : WStepInv st.1 st.2) :
    WStepInv (wasteBarePlaceStep waste_items uid st id).1
      (wasteBarePlaceStep waste_items uid st id).2 := by
  unfold wasteBarePlaceStep
  cases waste_items.find? (fun w => w.itemId = id) with
  | none => exact h
  | some w =>
      dsimp only
      split
      · exact h
      · exact wStepInv_append h rfl

lemma rearrangeCandidateStep_inv (containers : List (String × Container))
    (zone : String) (tv : ℚ) (st2 : ℚ × List RearrangementStep × ℕ)
    (cand : Item × Container) (h : StepInv st2.2.1 st2.2.2) :
    StepInv (rearrangeCandidateStep containers zone tv st2 cand).2.1
      (rearrangeCandidateStep containers zone tv st2 cand).2.2 := by
  obtain ⟨mv, steps, count⟩ := st2
  obtain ⟨it, cont⟩ := cand
  unfold rearrangeCandidateStep
  dsimp only
  split
  · exact h
  · exact stepInv_append h rfl

lemma rearrangeForTarget_inv (all_items : List (String × Item))
    (containers : List (String × Container))
    (st : List RearrangementStep × ℕ) (target : Item) (h : StepInv st.1 st.2) :
    StepInv (rearrangeForTarget all_items containers st target).1
      (rearrangeForTarget all_items containers st target).2 := by
  unfold rearrangeForTarget
  dsimp only
  have hinner := foldl_preserve (fun s : ℚ × List RearrangementStep × ℕ => StepInv s.2.1 s.2.2)
    (rearrangeCandidateStep containers target.preferredZone target.get_volume)
    (fun s a hs => rearrangeCandidateStep_inv containers target.preferredZone
      target.get_volume s a hs)
    (sortedCandidatesFor all_items containers target) (0, st.1, st.2) h
  split
  · split
    · exact hinner
    · exact stepInv_append hinner rfl
  · exact hinner

/-- Claim C7: in every emitted plan — rearrangement plan, retrieval plan
(under any enumeration of the `moved_to_temp` set) and waste-return plan —
the `step` fields form the contiguous sequence `1, 2, …, n`. -/
theorem step_ordinals_contiguous :
    (∀ (unplaced_items : List Item) (all_items : List (String × Item))
       (containers : List (String × Container)),
       stepNums (generate_rearrangement_plan unplaced_items all_items containers) =
         List.range' 1 (generate_rearrangement_plan unplaced_items all_items containers).length) ∧
    (∀ (setOrder : List (String × String) → List (String × String))
       (target : Item) (container : Container) (position rotation : ℚ × ℚ × ℚ)
       (items : List (String × Item)) (containers : List (String × Container)),
       stepNums (generate_optimized_retrieval_steps setOrder target container
           position rotation items containers) =
         List.range' 1 (generate_optimized_retrieval_steps setOrder target container
           position rotation items containers).length) ∧
    (∀ (waste_items : List WasteItem) (max_weight : ℚ) (undocking_container_id : String),
       wasteStepNums (generate_waste_return_plan waste_items max_weight
           undocking_container_id) =
         List.range' 1 (generate_waste_return_plan waste_items max_weight
           undocking_container_id).length) := by
  refine ⟨?_, ?_, ?_⟩
  · intro u a c
    unfold generate_rearrangement_plan
    exact (foldl_preserve (fun st : List RearrangementStep × ℕ => StepInv st.1 st.2)
      (rearrangeForTarget a c)
      (fun s t hs => rearrangeForTarget_inv a c s t hs)
      _ ([], 1) stepInv_nil).1
  · intro setOrder target container position rotation items containers
    unfold generate_optimized_retrieval_steps
    dsimp only
    set f1 := List.foldl (moveBlockerStep items container)
      ([], 1, [], availableContainersOf container containers)
      (calculate_retrieval_complexity target container position rotation items).2 with hf1
    have h1 : StepInv f1.1 f1.2.1 := by
      rw [hf1]
      exact foldl_preserve
        (fun st : List RearrangementStep × ℕ × List (String × String) × List AvailEntry =>
          StepInv st.1 st.2.1)
        (moveBlockerStep items container)
        (fun s a hs => moveBlockerStep_inv items container s a hs)
        (calculate_retrieval_complexity target container position rotation items).2
        ([], 1, [], availableContainersOf container containers) stepInv_nil
    have h2 : StepInv
        (f1.1 ++ [{ step := f1.2.1, action := "retrieve", itemId := target.itemId
                    fromContainer := some container.containerId }]) (f1.2.1 + 1) :=
      stepInv_append h1 rfl
    exact (foldl_preserve (fun st : List RearrangementStep × ℕ => StepInv st.1 st.2)
      (restoreBlockerStep container)
      (fun s a hs => restoreBlockerStep_inv container s a hs)
      ((setOrder f1.2.2.1).reverse) _ h2).1
  · intro waste_items max_weight uid
    unfold generate_waste_return_plan
    split
    · rfl
    · dsimp only
      have h1 := foldl_preserve (fun st : List WasteReturnStep × ℕ => WStepInv st.1 st.2)
        (wasteGroupStep (knapsackSelect (⌊max_weight * 100⌋).toNat waste_items) uid)
        (fun s a hs => wasteGroupStep_inv _ uid s a hs)
        (groupByContainer waste_items) ([], 1) wStepInv_nil
      exact (foldl_preserve (fun st : List WasteReturnStep × ℕ => WStepInv st.1 st.2)
        (wasteBarePlaceStep waste_items uid)
        (fun s a hs => wasteBarePlaceStep_inv waste_items uid s a hs)
        _ _ h1).1

lemma lookup_updateAssoc {α : Type} (f : α → α) :
    ∀ (l : List (String × α)) (key k : String),
      (updateAssoc l key f).lookup k =
        if k = key then (l.lookup k).map f else l.lookup k := by
  intro l
  induction l with
  | nil => intro key k; by_cases h : k = key <;> simp [updateAssoc, h]
  | cons p rest ih =>
      intro key k
      obtain ⟨pk, pv⟩ := p
      simp only [updateAssoc, List.map_cons]
      by_cases hpk : pk = key
      · rw [if_pos hpk]
        by_cases hk : k = pk
        · have h1 : (k == pk) = true := by simp [hk]
          have h2 : k = key := hk.trans hpk
          simp only [List.lookup, h1, if_pos h2]
          rfl
        · have h1 : (k == pk) = false := by simp [hk]
          simp only [List.lookup, h1]
          have hrec := ih key k
          simp only [updateAssoc] at hrec
          rw [hrec]
      · rw [if_neg hpk]
        by_cases hk : k = pk
        · have h1 : (k == pk) = true := by simp [hk]
          have h2 : ¬(k = key) := by rw [hk]; exact hpk
          simp only [List.lookup, h1, if_neg h2]
        · have h1 : (k == pk) = false := by simp [hk]
          simp only [List.lookup, h1]
          have hrec := ih key k
          simp only [updateAssoc] at hrec
          rw [hrec]

lemma wasteMonotone_refl (l : List (String × Item)) : WasteMonotone l l :=
  fun _ it hl hw => ⟨it, hl, hw⟩

lemma wasteMonotone_updateAssoc (items0 cur : List (String × Item)) (key : String)
    (f : Item → Item)
    (hf : ∀ it, cur.lookup key = some it → it.isWaste = true → (f it).isWaste = true)
    (h : WasteMonotone items0 cur) : WasteMonotone items0 (updateAssoc cur key f) := by
  intro id it hl hw
  obtain ⟨it', hl', hw'⟩ := h id it hl hw
  rw [lookup_updateAssoc]
  by_cases hk : id = key
  · subst hk
    rw [if_pos rfl, hl']
    exact ⟨f it', rfl, hf it' hl' hw'⟩
  · rw [if_neg hk]
    exact ⟨it', hl', hw'⟩

lemma classifyWaste_of_isWaste (d : ℤ) (it : Item) (h : it.isWaste = true) :
    (classifyWaste d it).2 = it := by
  simp [classifyWaste, h]

lemma placeOne_wasteMonotone (items0 : List (String × Item)) (st : PlaceState)
    (item : Item) (h : WasteMonotone items0 st.items) :
    WasteMonotone items0 (placeOne st item).items := by
  unfold placeOne
  split
  · exact h
  · split
    · exact h
    · dsimp only
      exact wasteMonotone_updateAssoc items0 st.items item.itemId _
        (fun it _ hw => hw) h

/-- Claim C8: no core operation resets a true `isWaste` flag — the placement
planner, item retrieval, waste identification, the time simulation service
and undock completion each map every waste-flagged store entry to a
waste-flagged entry (waste-return plan generation takes no item store at
all, see `generate_waste_return_plan`). -/
theorem isWaste_monotone :
    (∀ (d : ℤ) (items : List (String × Item)) (containers : List (String × Container)),
       WasteMonotone items (calculate_placement d items containers).2.1) ∧
    (∀ (setOrder : List (String × String) → List (String × String))
       (item_id user_id : String) (items : List (String × Item))
       (containers : List (String × Container)),
       WasteMonotone items (retrieve_item setOrder item_id user_id items containers).2.2.1) ∧
    (∀ (items : List (String × Item)) (containers : List (String × Container)) (d : ℤ),
       WasteMonotone items (identify_waste_items items containers d).2.2.2) ∧
    (∀ (num_days current_date : ℤ) (items : List (String × Item)),
       WasteMonotone items (simulation_simulate_days num_days current_date items).2.1) ∧
    (∀ (waste_items : List WasteItem) (plan_steps : List WasteReturnStep)
       (items : List (String × Item)) (containers : List (String × Container)),
       WasteMonotone items
         (complete_undocking waste_items plan_steps items containers).2.1) := by
  refine ⟨?_, ?_, ?_, ?_, ?_⟩
  · intro d items containers
    unfold calculate_placement
    dsimp only
    exact foldl_preserve (fun st : PlaceState => WasteMonotone items st.items)
      placeOne (fun s a hs => placeOne_wasteMonotone items s a hs)
      (sortItemsForPlacement d (items.map Prod.snd))
      ⟨containers.map (fun p => (p.1, Space3D.make p.2.width p.2.depth p.2.height)),
       containers, items, [], []⟩
      (wasteMonotone_refl items)
  · intro setOrder item_id user_id items containers
    unfold retrieve_item
    split
    · exact wasteMonotone_refl items
    · rename_i item hl
      split
      · exact wasteMonotone_refl items
      · rename_i cid hc
        split
        · exact wasteMonotone_refl items
        · rename_i container hco
          dsimp only
          refine wasteMonotone_updateAssoc items items item_id _ ?_
            (wasteMonotone_refl items)
          intro it hit hw
          rw [hl] at hit
          cases hit
          split
          · dsimp only
            split
            · rfl
            · exact hw
          · exact hw
  · intro items containers d
    unfold identify_waste_items
    dsimp only
    intro id it hl hw
    rw [lookup_map_values (fun it => (classifyWaste d it).2) items id, hl]
    exact ⟨(classifyWaste d it).2, rfl, by rw [classifyWaste_of_isWaste d it hw]; exact hw⟩
  · intro num_days current_date items
    unfold simulation_simulate_days
    dsimp only
    intro id it hl hw
    rw [lookup_map_values
      (fun it => if expiresNow current_date (current_date + num_days) it
                 then { it with isWaste := true } else it) items id, hl]
    refine ⟨_, rfl, ?_⟩
    dsimp only
    split
    · rfl
    · exact hw
  · intro waste_items plan_steps items containers
    unfold complete_undocking
    dsimp only
    refine foldl_preserve
      (fun st : List (String × Item) × List (String × Container) =>
        WasteMonotone items st.1)
      _ ?_ (removedItemIds plan_steps) (items, containers)
      (wasteMonotone_refl items)
    intro s a hs
    dsimp only
    cases hl : s.1.lookup a with
    | none => exact hs
    | some item =>
        dsimp only
        exact wasteMonotone_updateAssoc items s.1 a _ (fun it _ hw => hw) hs

/-- Witness for C8: the already-waste item `P` is still flagged after a
waste-identification pass over a one-item store. -/
theorem isWaste_monotone_check :
    ∃ it', ((identify_waste_items [("P", itemPreWaste)] [] 0).2.2.2).lookup "P" = some it' ∧
      it'.isWaste = true :=
  isWaste_monotone.2.2.1 [("P", itemPreWaste)] [] 0 "P" itemPreWaste
    (by with_unfolding_all decide) (by with_unfolding_all decide)

lemma maxValueWeight_le (sel : ℕ → List String) : ∀ n, maxValueWeight sel n ≤ n := by
  intro n
  induction n with
  | zero => simp [maxValueWeight]
  | succ m ih =>
      unfold maxValueWeight
      split
      · exact Nat.le_refl _
      · exact Nat.le_trans ih (Nat.le_succ m)

/-- The DP invariant of the 0/1 knapsack: every cell's selection is (the id
list of) a duplicate-free sub-sequence of the processed items whose total
truncated scaled weight is bounded by the cell index. -/
lemma knap_fold_inv (wmax n : ℕ) :
    ∀ (l : List (ℕ × WasteItem)) (pre : List WasteItem) (st : KnapState),
      ((pre ++ l.map Prod.snd).map (fun w => w.itemId)).Nodup →
      (∀ w, ∃ sub : List WasteItem, sub.Sublist pre ∧
         st.sel w = sub.map (fun x => x.itemId) ∧
         ((sub.map (fun x => ⌊x.mass * 100⌋)).sum ≤ (w : ℤ))) →
      (∀ w, ∃ sub : List WasteItem, sub.Sublist (pre ++ l.map Prod.snd) ∧
         (l.foldl
            (fun st p =>
              knapsackStep wmax st ⌊p.2.mass * 100⌋ (knapsackValue n p.1 p.2) p.2.itemId)
            st).sel w = sub.map (fun x => x.itemId) ∧
         ((sub.map (fun x => ⌊x.mass * 100⌋)).sum ≤ (w : ℤ))) := by
  intro l
  induction l with
  | nil =>
      intro pre st _ hInv w
      obtain ⟨sub, h1, h2, h3⟩ := hInv w
      exact ⟨sub, by simpa using h1, h2, h3⟩
  | cons p rest ih =>
      intro pre st hnd hInv w
      have hnd' : (((pre ++ [p.2]) ++ rest.map Prod.snd).map (fun w => w.itemId)).Nodup := by
        have : (pre ++ [p.2]) ++ rest.map Prod.snd = pre ++ (p :: rest).map Prod.snd := by
          simp
        rw [this]
        exact hnd
      have hid_not_pre : p.2.itemId ∉ pre.map (fun w => w.itemId) := by
        intro hmem
        rw [List.map_append] at hnd
        rcases List.nodup_append.mp hnd with ⟨_, _, hdisj⟩
        exact hdisj hmem (by simp)
      have hstep : ∀ w, ∃ sub : List WasteItem, sub.Sublist (pre ++ [p.2]) ∧
          (knapsackStep wmax st ⌊p.2.mass * 100⌋ (knapsackValue n p.1 p.2) p.2.itemId).sel w =
            sub.map (fun x => x.itemId) ∧
          ((sub.map (fun x => ⌊x.mass * 100⌋)).sum ≤ (w : ℤ)) := by
        intro w
        unfold knapsackStep
        split
        · obtain ⟨sub, h1, h2, h3⟩ := hInv w
          exact ⟨sub, h1.trans (List.sublist_append_left _ _), h2, h3⟩
        · rename_i hsm
          dsimp only
          split
          · rename_i hcond
            obtain ⟨hle, hwle, _⟩ := hcond
            obtain ⟨sub, h1, h2, h3⟩ := hInv (w - (⌊p.2.mass * 100⌋).toNat)
            have hnotin : p.2.itemId ∉ st.sel (w - (⌊p.2.mass * 100⌋).toNat) := by
              rw [h2]
              intro hmem
              exact hid_not_pre ((h1.map (fun w => w.itemId)).mem hmem)
            refine ⟨sub ++ [p.2], h1.append (List.Sublist.refl [p.2]), ?_, ?_⟩
            · rw [setAdd, if_neg hnotin, h2, List.map_append]
              rfl
            · rw [List.map_append, List.sum_append]
              have hcast : ((w - (⌊p.2.mass * 100⌋).toNat : ℕ) : ℤ) =
                  (w : ℤ) - ((⌊p.2.mass * 100⌋).toNat : ℤ) := by
                exact_mod_cast Int.ofNat_sub hle
              have hsm' : ((⌊p.2.mass * 100⌋).toNat : ℤ) = ⌊p.2.mass * 100⌋ :=
                Int.toNat_of_nonneg (by omega)
              simp only [List.map_cons, List.map_nil, List.sum_cons, List.sum_nil]
              rw [hcast] at h3
              omega
          · obtain ⟨sub, h1, h2, h3⟩ := hInv w
            exact ⟨sub, h1.trans (List.sublist_append_left _ _), h2, h3⟩
      have := ih (pre ++ [p.2])
        (knapsackStep wmax st ⌊p.2.mass * 100⌋ (knapsackValue n p.1 p.2) p.2.itemId)
        hnd' hstep w
      obtain ⟨sub, h1, h2, h3⟩ := this
      refine ⟨sub, ?_, h2, h3⟩
      have : (pre ++ [p.2]) ++ rest.map Prod.snd = pre ++ (p :: rest).map Prod.snd := by
        simp
      rw [← this]
      exact h1

/-- The selection computed by `generate_waste_return_plan`'s knapsack is a
duplicate-free sub-collection of the waste list whose total truncated scaled
weight respects the scaled capacity. -/
lemma knapsackSelect_spec (wmax : ℕ) (waste_items : List WasteItem)
    (hnd : (waste_items.map (fun w => w.itemId)).Nodup) :
    ∃ sub : List WasteItem, sub.Sublist waste_items ∧
      knapsackSelect wmax waste_items = sub.map (fun x => x.itemId) ∧
      ((sub.map (fun x => ⌊x.mass * 100⌋)).sum ≤ (wmax : ℤ)) := by
  have hfold := knap_fold_inv wmax waste_items.length waste_items.enum [] ⟨fun _ => 0, fun _ => []⟩
    (by simpa [List.enum_map_snd] using hnd)
    (fun w => ⟨[], List.nil_sublist _, rfl, by simp⟩)
  unfold knapsackSelect knapsackRun
  set st := waste_items.enum.foldl
    (fun st p =>
      knapsackStep wmax st ⌊p.2.mass * 100⌋
        (knapsackValue waste_items.length p.1 p.2) p.2.itemId)
    ⟨fun _ => 0, fun _ => []⟩ with hst
  obtain ⟨sub, h1, h2, h3⟩ := hfold (maxValueWeight st.sel wmax)
  refine ⟨sub, ?_, h2, le_trans h3 (by exact_mod_cast maxValueWeight_le st.sel wmax)⟩
  simpa [List.enum_map_snd] using h1

/-- Filtering a duplicate-free (by id) list down to the ids of one of its
sub-sequences recovers exactly that sub-sequence. -/
lemma filter_mem_ids_of_sublist :
    ∀ (sub waste_items : List WasteItem), sub.Sublist waste_items →
      ((waste_items.map (fun w => w.itemId)).Nodup) →
      waste_items.filter (fun x => x.itemId ∈ sub.map (fun w => w.itemId)) = sub := by
  intro sub waste_items hsub
  induction hsub with
  | slnil => intro _; rfl
  | cons y hsub ih =>
      rename_i sub' l'
      intro hnd
      rw [List.map_cons, List.nodup_cons] at hnd
      rw [List.filter_cons]
      split
      · rename_i hcond
        exfalso
        simp only [decide_eq_true_eq] at hcond
        exact hnd.1 ((hsub.map (fun w => w.itemId)).mem hcond)
      · exact ih hnd.2
  | cons₂ x hsub ih =>
      rename_i sub' l'
      intro hnd
      rw [List.map_cons, List.nodup_cons] at hnd
      rw [List.filter_cons]
      rw [if_pos (by simp)]
      congr 1
      have hcongr : ∀ y ∈ l',
          (decide (y.itemId ∈ (x :: sub').map (fun w => w.itemId))) =
            (decide (y.itemId ∈ sub'.map (fun w => w.itemId))) := by
        intro y hy
        have hyx : y.itemId ≠ x.itemId := by
          intro he
          apply hnd.1
          rw [← he]
          exact List.mem_map.mpr ⟨y, hy, rfl⟩
        simp [hyx]
      rw [List.filter_congr hcongr]
      exact ih hnd.2

/-- Claim C6, amended: the knapsack selection of `generate_waste_return_plan`
respects the *scaled* capacity — the sum of the truncated integer weights
`int(mass·100)` over the selected items is at most `int(max_weight·100)`
(the true masses can exceed `max_weight`, see the counterexample). -/
theorem knapsack_scaled_capacity (waste_items : List WasteItem) (max_weight : ℚ)
    (hnd : (waste_items.map (fun w => w.itemId)).Nodup)
    (hmw : 0 ≤ max_weight) :
    ((waste_items.filter (fun x =>
        x.itemId ∈ knapsackSelect (⌊max_weight * 100⌋).toNat waste_items)).map
      (fun x => ⌊x.mass * 100⌋)).sum ≤ ⌊max_weight * 100⌋ := by
  obtain ⟨sub, hsub, hsel, hsum⟩ :=
    knapsackSelect_spec (⌊max_weight * 100⌋).toNat waste_items hnd
  have hfloor : (((⌊max_weight * 100⌋).toNat : ℕ) : ℤ) = ⌊max_weight * 100⌋ := by
    have : (0 : ℤ) ≤ ⌊max_weight * 100⌋ := by
      apply Int.floor_nonneg.mpr
      positivity
    omega
  have heq : waste_items.filter (fun x =>
      x.itemId ∈ knapsackSelect (⌊max_weight * 100⌋).toNat waste_items) =
      waste_items.filter (fun x => x.itemId ∈ sub.map (fun w => w.itemId)) := by
    rw [hsel]
  rw [heq, filter_mem_ids_of_sublist sub waste_items hsub hnd]
  rw [← hfloor]
  exact hsum

/-- Witness for C6's amended claim: the single 0.019 kg waste item under
`max_weight = 0.01` — the truncated scaled weight 1 equals the scaled
capacity 1. -/
theorem knapsack_scaled_capacity_check :
    (([wasteW].filter (fun x =>
        x.itemId ∈ knapsackSelect (⌊(1/100 : ℚ) * 100⌋).toNat [wasteW])).map
      (fun x => ⌊x.mass * 100⌋)).sum ≤ ⌊(1/100 : ℚ) * 100⌋ :=
  knapsack_scaled_capacity [wasteW] (1/100)
    (by with_unfolding_all decide) (by with_unfolding_all decide)

end SpaceCargo

